import Mathlib

/-!
Shallow embedding of src/accessories/simplicam.js (class SS3SimpliCam) of
homebridge-simplisafe3, covering the streaming-session, snapshot and
event-subscription logic, together with theorems settling the frozen claims
about it.

Conventions of the embedding:
* JavaScript argument arrays such as ["-vf", "scale=..."] become `Arg`
  (a key together with an optional value; a one-element array has value
  `none`).
* JavaScript values compared with === false in the override merge become
  the inductive `JVal`, whose constructor `vFalse` is the boolean false.
* The maps this.pendingSessions and this.ongoingSessions are modelled by
  their key sets (`List String`), and this.serverIpAddress by
  `Option String`, bundled in `CamState`.
* Asynchronous child-process events (stderr "data", "error", "close") are
  an explicit event type `ProcEvent` driving the translated handler
  bodies; the completion callback of a request is recorded as an output
  list, one element per invocation, so invocation counts are provable.
-/

/-- A JavaScript value as it occurs in the ffmpeg argument lists and in the
override maps: a string, a number, or the boolean false used as the
removal marker. -/
inductive JVal where
  | vStr : String → JVal
  | vInt : Int → JVal
  | vFalse : JVal
  deriving DecidableEq

/-- One element of an ffmpeg argument group: arg[0] is `key`, arg[1] (absent
for one-element arrays such as ["-re"]) is `val`. -/
structure Arg where
  key : String
  val : Option JVal
  deriving DecidableEq

/-- existingArg[1] = v : mutate the first element whose arg[0] equals k. -/
def setFirst (k : String) (v : JVal) : List Arg → List Arg
  | [] => []
  | a :: rest =>
      if a.key == k then ⟨a.key, some v⟩ :: rest else a :: setFirst k v rest

/-- group.find(arg => arg[0] === key) succeeds. -/
def hasKey (g : List Arg) (k : String) : Bool :=
  g.any (fun a => a.key == k)

/-- group.filter(arg => arg[0] !== key). -/
def removeKey (k : String) (g : List Arg) : List Arg :=
  g.filter (fun a => a.key != k)

/-- One iteration of the override-merge loop of handleStreamRequest
(lines 453-464 for the source group, 471-482 for video, 489-500 for
audio).  The three loops are identical except that a flag that is not yet
present is unshifted for the source group and pushed for video and audio;
`atEnd` selects the variant (true = push). -/
def mergeStep (atEnd : Bool) (g : List Arg) (kv : String × JVal) : List Arg :=
  if hasKey g kv.1 then
    if kv.2 = JVal.vFalse then removeKey kv.1 g
    else setFirst kv.1 kv.2 g
  else if atEnd then g ++ [⟨kv.1, some kv.2⟩] else ⟨kv.1, some kv.2⟩ :: g

/-- The whole override-merge loop: fold `mergeStep` over the entries of the
override map (a JavaScript object, so its keys are distinct). -/
def mergeOptions (atEnd : Bool) (g : List Arg) (m : List (String × JVal)) : List Arg :=
  m.foldl (mergeStep atEnd) g

/-- group.find? by key, returning the first matching element. -/
def firstArg (g : List Arg) (k : String) : Option Arg :=
  g.find? (fun a => a.key == k)

/-- Events delivered to the handlers installed on the spawned ffmpeg child
process `cmd` (lines 523-555): a line of stderr output, the "error"
event, and the "close" event carrying the exit code (null for signal
termination). -/
inductive ProcEvent where
  | stderrData
  | procError
  | close : Option Int → ProcEvent
  deriving DecidableEq

/-- The one-shot readiness latch `let started = false` of the start request
(line 522). -/
structure HandlerState where
  started : Bool
  deriving DecidableEq

/-- Observable effects of the process handlers: the completion callback
invoked with success, the callback invoked with an error, and
this.controller.forceStopStreamingSession. -/
inductive HOut where
  | cbSuccess
  | cbErrStart
  | forceStop
  deriving DecidableEq

/-- The switch cases null, 0, 255 of the "close" handler (lines 540-543). -/
def isNormalCode (c : Option Int) : Bool :=
  c == none || c == some 0 || c == some 255

/-- The translated bodies of the three handlers installed on `cmd`
(lines 523-555).  The stderr "data" handler invokes the callback only
when the latch is unset and then sets it; the "error" handler invokes
the callback unconditionally; the "close" handler does nothing for
codes null, 0, 255, invokes the callback with an error when the latch
is unset, and otherwise forcibly stops the streaming session. -/
def handlerStep (h : HandlerState) : ProcEvent → HandlerState × List HOut
  | .stderrData => if h.started then (h, []) else (⟨true⟩, [.cbSuccess])
  | .procError => (h, [.cbErrStart])
  | .close c =>
      if isNormalCode c then (h, [])
      else if h.started then (h, [.forceStop]) else (h, [.cbErrStart])

/-- Deliver a sequence of process events to the handlers, accumulating the
emitted effects. -/
def runHandler : HandlerState → List ProcEvent → HandlerState × List HOut
  | h, [] => (h, [])
  | h, e :: es =>
      let p := handlerStep h e
      let q := runHandler p.1 es
      (q.1, p.2 ++ q.2)

/-- Effects that are invocations of the completion callback (forceStop is
not a callback invocation). -/
def isCallback : HOut → Bool
  | .cbSuccess => true
  | .cbErrStart => true
  | .forceStop => false

/-- Number of completion-callback invocations in an effect list. -/
def cbCount (l : List HOut) : Nat :=
  (l.filter isCallback).length

/-- Number of success-callback invocations in an effect list. -/
def successCount (l : List HOut) : Nat :=
  (l.filter (fun o => o == HOut.cbSuccess)).length

/-- In Node, the "close" event of a child process fires once, after the
stdio streams have closed; no stderr data follows it.  This predicate
restricts event sequences accordingly: a close event may only be the
last event. -/
def closesTailOnly : List ProcEvent → Bool
  | [] => true
  | [_] => true
  | e :: rest =>
      (match e with | ProcEvent.close _ => false | _ => true) && closesTailOnly rest

/-- The session-map state of the accessory: the key sets of
this.pendingSessions and this.ongoingSessions, and the cached
this.serverIpAddress. -/
structure CamState where
  pending : List String
  ongoing : List String
  cache : Option String
  deriving DecidableEq

/-- l.filter(x => x !== id): delete a key. -/
def removeAll (id : String) (l : List String) : List String :=
  l.filter (fun x => x != id)

/-- Kinds of errors passed to a stream-request callback. -/
inductive ErrKind where
  | rateLimited
  | resolveFailed
  deriving DecidableEq

/-- Synchronous observable effects of handleStreamRequest: the callback
invoked with success (stop path, line 574), the callback invoked with an
error (lines 348 and 375), and the spawn of ffmpeg with the media host
actually used in the input URL (line 509; the success callback of a
spawned start arrives later, via the stderr handler, see `handlerStep`). -/
inductive SSOut where
  | cbOk
  | cbErr : ErrKind → SSOut
  | spawn : String → SSOut
  deriving DecidableEq

/-- Requests dispatched by handleStreamRequest (lines 336-577).  A start
request carries the rate-limit flag read at line 344 and the result of
the dns lookup of media.simplisafe.com at line 369 (none = lookup
threw). -/
inductive StreamReq where
  | start (id : String) (blocked : Bool) (dns : Option String)
  | stop (id : String)
  deriving DecidableEq

/-- The translated body of handleStreamRequest, processed atomically from
request arrival to return.  Start: when rate limited, delete the pending
session and fail (lines 344-350); when a pending session exists, resolve
the host (fresh address on success, cached address on failure, error
and return when neither, lines 368-378), spawn ffmpeg and register the
child in ongoingSessions (line 557), and in every path delete the
pending session (line 560); a start with no pending session does
nothing but that deletion.  Stop: kill the child, delete the ongoing
session, invoke the callback (lines 562-575). -/
def handleStreamRequest (s : CamState) : StreamReq → CamState × List SSOut
  | .start id blocked dns =>
      if blocked then
        (⟨removeAll id s.pending, s.ongoing, s.cache⟩, [.cbErr .rateLimited])
      else if id ∈ s.pending then
        match dns with
        | some a =>
            (⟨removeAll id s.pending, List.insert id s.ongoing, some a⟩, [.spawn a])
        | none =>
            match s.cache with
            | some c =>
                (⟨removeAll id s.pending, List.insert id s.ongoing, some c⟩, [.spawn c])
            | none =>
                (⟨removeAll id s.pending, s.ongoing, s.cache⟩, [.cbErr .resolveFailed])
      else
        (⟨removeAll id s.pending, s.ongoing, s.cache⟩, [])
  | .stop id => (⟨s.pending, removeAll id s.ongoing, s.cache⟩, [.cbOk])

/-- The side effect of prepareStream on the session maps: line 331 stores a
pending session under the unparsed session identifier. -/
def prepareEffect (id : String) (s : CamState) : CamState :=
  ⟨List.insert id s.pending, s.ongoing, s.cache⟩

/-- Accessory-facing operations that touch the session maps, with the
environment data each needs. -/
inductive Op where
  | prepare (id : String)
  | start (id : String) (blocked : Bool) (dns : Option String)
  | stop (id : String)
  deriving DecidableEq

/-- One accessory-facing operation as a transition on the session maps. -/
def step (s : CamState) : Op → CamState × List SSOut
  | .prepare id => (prepareEffect id s, [])
  | .start id b d => handleStreamRequest s (.start id b d)
  | .stop id => handleStreamRequest s (.stop id)

/-- Run a sequence of operations from a state. -/
def runOps (s : CamState) : List Op → CamState
  | [] => s
  | op :: ops => runOps (step s op).1 ops

/-- The exclusivity invariant of the session maps: no identifier is a key
of both pendingSessions and ongoingSessions. -/
def MapsExclusive (s : CamState) : Prop :=
  ∀ id : String, id ∈ s.pending → id ∉ s.ongoing

/-- Environment of one handleSnapshotRequest call (lines 210-274): the
rate-limit gate of line 211, the motion flag, the camera model, the
three shutter configuration flags, the alarm state that getAlarmState
would return, the dns lookup result (none = lookup threw), and whether
the jpeg fetch would succeed. -/
structure SnapInput where
  blocked : Bool
  motion : Bool
  model : String
  shutterOff : String
  shutterHome : String
  shutterAway : String
  alarmState : String
  dnsResult : Option String
  fetchOk : Bool
  deriving DecidableEq

/-- Invocations of the snapshot completion callback. -/
inductive SnapOut where
  | errRateLimited
  | errPrivacy
  | ok
  | errFetch
  deriving DecidableEq

/-- Result of one handleSnapshotRequest call: the new cached address, whether
getAlarmState was awaited, whether the dns lookup was attempted, the host
the jpeg fetch was issued with (`none` = no fetch; `some none` = fetch
issued while this.serverIpAddress is still unset), and the callback
invocations. -/
structure SnapResult where
  cache : Option String
  alarmQueried : Bool
  resolved : Bool
  fetchHost : Option (Option String)
  callbacks : List SnapOut
  deriving DecidableEq

/-- The privacy-shutter switch of lines 222-246: the request is rejected
when the flag configured for the current alarm state is not "open"
(alarm states other than OFF, HOME, AWAY fall through the switch). -/
def privacyGateClosed (i : SnapInput) : Bool :=
  (i.alarmState == "OFF" && i.shutterOff != "open")
    || (i.alarmState == "HOME" && i.shutterHome != "open")
    || (i.alarmState == "AWAY" && i.shutterAway != "open")

/-- Lines 249-273 of handleSnapshotRequest: attempt the dns lookup; on
success overwrite this.serverIpAddress, on failure keep it (when it is
unset the failure is only logged); then issue the jpeg fetch against
whatever this.serverIpAddress now holds and invoke the callback once
with the image or the fetch error. -/
def snapProceed (cache : Option String) (i : SnapInput) (queried : Bool) : SnapResult :=
  let cache2 := match i.dnsResult with
    | some a => some a
    | none => cache
  ⟨cache2, queried, true, some cache2,
    [if i.fetchOk then SnapOut.ok else SnapOut.errFetch]⟩

/-- The translated body of handleSnapshotRequest (lines 210-274): the
rate-limit gate, then, for model "SS001" with no active motion event,
the privacy-shutter gate over the awaited alarm state, then the dns
lookup and the fetch. -/
def handleSnapshotRequest (cache : Option String) (i : SnapInput) : SnapResult :=
  if i.blocked then ⟨cache, false, false, none, [SnapOut.errRateLimited]⟩
  else if !i.motion && i.model == "SS001" then
    if privacyGateClosed i then ⟨cache, true, false, none, [SnapOut.errPrivacy]⟩
    else snapProceed cache i true
  else snapProceed cache i false

/-- Buffer.readInt32BE over four bytes: big-endian composition, interpreted
as a signed 32-bit integer. -/
def readInt32BE (b0 b1 b2 b3 : Fin 256) : Int :=
  let u : Nat := b0.val * 16777216 + b1.val * 65536 + b2.val * 256 + b3.val
  if u < 2147483648 then (u : Int) else (u : Int) - 4294967296

/-- Four bytes produced by crypto.randomBytes(4). -/
structure RandBytes where
  b0 : Fin 256
  b1 : Fin 256
  b2 : Fin 256
  b3 : Fin 256
  deriving DecidableEq

/-- Lines 286-288 (and 306-308): ssrcSource[0] = 0, then
ssrcSource.readInt32BE(0): the first random byte is forced to zero
before the big-endian read. -/
def ssrcFromRandom (b : RandBytes) : Int :=
  readInt32BE 0 b.b1 b.b2 b.b3

/-- The per-media-type part of a prepareStream request: port and srtp
key/salt chosen by the caller. -/
structure MediaRequest where
  port : Nat
  srtp_key : List Nat
  srtp_salt : List Nat
  deriving DecidableEq

/-- A prepareStream request (lines 276-334). -/
structure PrepareRequest where
  sessionID : String
  targetAddress : String
  video : Option MediaRequest
  audio : Option MediaRequest
  deriving DecidableEq

/-- The per-media-type part of the prepareStream response: port, generated
SSRC, and the echoed key/salt. -/
structure MediaResponse where
  port : Nat
  ssrc : Int
  srtp_key : List Nat
  srtp_salt : List Nat
  deriving DecidableEq

/-- The local address part of the prepareStream response (lines 325-329). -/
structure AddressResponse where
  address : String
  isV4 : Bool
  deriving DecidableEq

/-- The prepareStream response. -/
structure PrepareResponse where
  video : Option MediaResponse
  audio : Option MediaResponse
  address : AddressResponse
  deriving DecidableEq

/-- The translated body of prepareStream (lines 276-334): per requested
media type generate the SSRC from the random bytes (first byte forced to
zero) and echo port, key and salt; record the pending session; invoke
the callback once with the response.  `vrand` and `arand` are the bytes
crypto.randomBytes(4) returned for the video and audio SSRC, `myIP` and
`isV4` the result of ip.address() and ip.isV4Format. -/
def prepareStream (s : CamState) (req : PrepareRequest) (vrand arand : RandBytes)
    (myIP : String) (isV4 : Bool) : CamState × List PrepareResponse :=
  let vresp := req.video.map
    (fun m => MediaResponse.mk m.port (ssrcFromRandom vrand) m.srtp_key m.srtp_salt)
  let aresp := req.audio.map
    (fun m => MediaResponse.mk m.port (ssrcFromRandom arand) m.srtp_key m.srtp_salt)
  (prepareEffect req.sessionID s, [⟨vresp, aresp, ⟨myIP, isV4⟩⟩])

/-- Invocations of the getState callback (lines 125-132). -/
inductive GetOut where
  | err
  | ok (v : Int)
  deriving DecidableEq

/-- The translated body of getState: fail fast when rate limited, else
return the cached characteristic value; one callback invocation on each
path. -/
def getState (blocked : Bool) (value : Int) : List GetOut :=
  if blocked then [GetOut.err] else [GetOut.ok value]

/-- The translated body of identify (lines 95-98): one callback invocation. -/
def identifyCalls : List Unit := [()]

/-- Events seen by the subscribeToEvents flow of startListening
(lines 151-208): the socket-level events dispatched to the callback and
the RateLimitError caught at line 199. -/
inductive SubEvent where
  | connected
  | disconnect
  | connectionLost
  | rateLimitErr
  deriving DecidableEq

/-- Backoff bookkeeping of startListening: given the base interval and the
current this.nSocketConnectFailures, each event yields the new counter
and the delay of the retry it schedules (none = no retry scheduled).
CONNECTED resets the counter (line 159); CONNECTION_LOST schedules a
retry after the base interval (line 166); a RateLimitError schedules a
retry after 2 ^ counter * base and then increments the counter
(lines 200-205). -/
def subStep (base n : Nat) : SubEvent → Nat × Option Nat
  | .connected => (0, none)
  | .disconnect => (n, none)
  | .connectionLost => (n, some base)
  | .rateLimitErr => (n + 1, some (2 ^ n * base))

/-- Process a sequence of subscription events, collecting the scheduled
retry delays in order. -/
def runSub (base : Nat) : Nat → List SubEvent → Nat × List Nat
  | n, [] => (n, [])
  | n, e :: es =>
      let p := subStep base n e
      let q := runSub base p.1 es
      (q.1, (match p.2 with | some d => [d] | none => []) ++ q.2)

/-- The source argument group of lines 380-384: realtime flag, bearer
header, and the authenticated flv input URL embedding the requested
width. -/
def buildSourceArgs (token host uuid : String) (width : Nat) : List Arg :=
  [⟨"-re", none⟩,
   ⟨"-headers", some (JVal.vStr ("Authorization: Bearer " ++ token))⟩,
   ⟨"-i", some (JVal.vStr ("https://" ++ host ++ "/v1/" ++ uuid ++ "/flv?x="
      ++ toString width ++ "&audioEncoding=AAC"))⟩]

/-- The video argument group of lines 386-404. -/
def buildVideoArgs (fps vb mtu width : Nat) (ssrc : Int) (srtpB64 addr : String)
    (port : Nat) : List Arg :=
  [⟨"-map", some (JVal.vStr "0:0")⟩,
   ⟨"-vcodec", some (JVal.vStr "libx264")⟩,
   ⟨"-tune", some (JVal.vStr "zerolatency")⟩,
   ⟨"-preset", some (JVal.vStr "superfast")⟩,
   ⟨"-pix_fmt", some (JVal.vStr "yuv420p")⟩,
   ⟨"-r", some (JVal.vInt (fps : Int))⟩,
   ⟨"-f", some (JVal.vStr "rawvideo")⟩,
   ⟨"-vf", some (JVal.vStr ("scale=" ++ toString width ++ ":-2"))⟩,
   ⟨"-b:v", some (JVal.vStr (toString vb ++ "k"))⟩,
   ⟨"-bufsize", some (JVal.vStr (toString (2 * vb) ++ "k"))⟩,
   ⟨"-maxrate", some (JVal.vStr (toString vb ++ "k"))⟩,
   ⟨"-payload_type", some (JVal.vInt 99)⟩,
   ⟨"-ssrc", some (JVal.vInt ssrc)⟩,
   ⟨"-f", some (JVal.vStr "rtp")⟩,
   ⟨"-srtp_out_suite", some (JVal.vStr "AES_CM_128_HMAC_SHA1_80")⟩,
   ⟨"-srtp_out_params", some (JVal.vStr srtpB64)⟩,
   ⟨"srtp://" ++ addr ++ ":" ++ toString port ++ "?rtcpport=" ++ toString port
      ++ "&localrtcpport=" ++ toString port ++ "&pkt_size=" ++ toString mtu, none⟩]

/-- The audio argument group of lines 406-421. -/
def buildAudioArgs (abr asr : Nat) (ssrc : Int) (srtpB64 addr : String)
    (port : Nat) : List Arg :=
  [⟨"-map", some (JVal.vStr "0:1")⟩,
   ⟨"-acodec", some (JVal.vStr "libfdk_aac")⟩,
   ⟨"-flags", some (JVal.vStr "+global_header")⟩,
   ⟨"-profile:a", some (JVal.vStr "aac_eld")⟩,
   ⟨"-ac", some (JVal.vStr "1")⟩,
   ⟨"-ar", some (JVal.vStr (toString asr ++ "k"))⟩,
   ⟨"-b:a", some (JVal.vStr (toString abr ++ "k"))⟩,
   ⟨"-bufsize", some (JVal.vStr (toString (2 * abr) ++ "k"))⟩,
   ⟨"-payload_type", some (JVal.vInt 110)⟩,
   ⟨"-ssrc", some (JVal.vInt ssrc)⟩,
   ⟨"-f", some (JVal.vStr "rtp")⟩,
   ⟨"-srtp_out_suite", some (JVal.vStr "AES_CM_128_HMAC_SHA1_80")⟩,
   ⟨"-srtp_out_params", some (JVal.vStr srtpB64)⟩,
   ⟨"srtp://" ++ addr ++ ":" ++ toString port ++ "?rtcpport=" ++ toString port
      ++ "&localrtcpport=" ++ toString port ++ "&pkt_size=188", none⟩]

/-- The docker width clamp of lines 423-428, acting on the three built
groups: when running under docker with no custom ffmpeg binary
configured (customPath none covers both a missing cameraOptions and a
missing cameraOptions.ffmpegPath), the local width is clamped to 720 and
the first "-vf" element of the video group is rewritten; nothing else is
touched. -/
def clampStep (docker : Bool) (customPath : Option String) (width : Nat)
    (groups : List Arg × List Arg × List Arg) :
    Nat × (List Arg × List Arg × List Arg) :=
  if docker && customPath.isNone then
    let w := min width 720
    (w, (groups.1,
         setFirst "-vf" (JVal.vStr ("scale=" ++ toString w ++ ":-2")) groups.2.1,
         groups.2.2))
  else (width, groups)

/-! ## Helper lemmas -/

theorem cbCount_append (a b : List HOut) : cbCount (a ++ b) = cbCount a + cbCount b := by
  simp [cbCount, List.filter_append]

theorem successCount_append (a b : List HOut) :
    successCount (a ++ b) = successCount a + successCount b := by
  simp [successCount, List.filter_append]

theorem runHandler_true_counts (es : List ProcEvent) (h1 : ProcEvent.procError ∉ es) :
    cbCount (runHandler ⟨true⟩ es).2 = 0 ∧ successCount (runHandler ⟨true⟩ es).2 = 0 := by
  induction es with
  | nil => simp [runHandler, cbCount, successCount]
  | cons e rest ih =>
    have hr : ProcEvent.procError ∉ rest := fun hm => h1 (List.mem_cons_of_mem _ hm)
    obtain ⟨ihc, ihs⟩ := ih hr
    cases e with
    | stderrData =>
      simpa [runHandler, handlerStep] using And.intro ihc ihs
    | procError => exact absurd (List.mem_cons_self _ _) h1
    | close c =>
      by_cases hn : isNormalCode c = true
      · simpa [runHandler, handlerStep, hn] using And.intro ihc ihs
      · have hstep : (runHandler ⟨true⟩ (ProcEvent.close c :: rest)).2
            = [HOut.forceStop] ++ (runHandler ⟨true⟩ rest).2 := by
          simp [runHandler, handlerStep, hn]
        rw [hstep, cbCount_append, successCount_append, ihc, ihs]
        exact ⟨rfl, rfl⟩

theorem runHandler_false_once (es : List ProcEvent) (h1 : ProcEvent.procError ∉ es)
    (h2 : closesTailOnly es = true) :
    cbCount (runHandler ⟨false⟩ es).2 ≤ 1
      ∧ (ProcEvent.stderrData ∈ es → successCount (runHandler ⟨false⟩ es).2 = 1) := by
  cases es with
  | nil => simp [runHandler, cbCount]
  | cons e rest =>
    cases e with
    | stderrData =>
      have hr : ProcEvent.procError ∉ rest := fun hm => h1 (List.mem_cons_of_mem _ hm)
      obtain ⟨ihc, ihs⟩ := runHandler_true_counts rest hr
      have hstep : (runHandler ⟨false⟩ (ProcEvent.stderrData :: rest)).2
          = [HOut.cbSuccess] ++ (runHandler ⟨true⟩ rest).2 := by
        simp [runHandler, handlerStep]
      rw [hstep, cbCount_append, successCount_append, ihc, ihs]
      exact ⟨le_refl 1, fun _ => rfl⟩
    | procError => exact absurd (List.mem_cons_self _ _) h1
    | close c =>
      cases rest with
      | nil =>
        by_cases hn : isNormalCode c = true
        · simp [runHandler, handlerStep, hn, cbCount, successCount]
        · simp [runHandler, handlerStep, hn, cbCount, successCount, isCallback]
      | cons r t => simp [closesTailOnly] at h2

/-! ## Claim C1 -/

/-- C1, counterexample.  The claim says every accessory-facing operation
invokes its completion callback exactly once per request, and that for a
start request no process error event causes a second invocation of the
callback.  Both parts fail on the code: delivering a first stderr line
and then a process "error" event to the handlers of a spawned start
invokes the callback twice (the error handler at lines 534-537 is not
guarded by the readiness latch), and a start request that finds no
pending session for its identifier (lines 352-353, 558) returns without
ever invoking the callback. -/
theorem claim1_counterexample :
    cbCount (runHandler ⟨false⟩ [ProcEvent.stderrData, ProcEvent.procError]).2 = 2
      ∧ (step ⟨[], [], none⟩ (Op.start "a" false (some "9.9.9.9"))).2 = [] := by
  constructor
  · rfl
  · rfl

/-- C1, amended: every accessory-facing operation invokes its completion
callback exactly once per request, except that a start request finding
no pending session for its identifier invokes it zero times, and that a
transcoder process "error" event invokes the start callback
unconditionally, even when it was already invoked.  For a start request
that spawns, and process-event sequences without an "error" event in
which the "close" event can only come last: the first stderr line
triggers exactly one success callback and no later output line or exit
event causes a second invocation. -/
theorem claim1_amended :
    (∀ es : List ProcEvent, ProcEvent.procError ∉ es → closesTailOnly es = true →
      cbCount (runHandler ⟨false⟩ es).2 ≤ 1
        ∧ (ProcEvent.stderrData ∈ es → successCount (runHandler ⟨false⟩ es).2 = 1))
    ∧ (∀ (s : CamState) (id : String) (dns : Option String), id ∉ s.pending →
        (step s (Op.start id false dns)).2 = [])
    ∧ (∀ (s : CamState) (id : String) (dns : Option String),
        (step s (Op.start id true dns)).2 = [SSOut.cbErr ErrKind.rateLimited])
    ∧ (∀ (s : CamState) (id : String) (dns : Option String), id ∈ s.pending →
        ((step s (Op.start id false dns)).2 = [SSOut.cbErr ErrKind.resolveFailed]
          ∨ ∃ a, (step s (Op.start id false dns)).2 = [SSOut.spawn a]))
    ∧ (∀ (s : CamState) (id : String), (step s (Op.stop id)).2 = [SSOut.cbOk])
    ∧ (∀ (cache : Option String) (i : SnapInput),
        (handleSnapshotRequest cache i).callbacks.length = 1)
    ∧ (∀ (s : CamState) (req : PrepareRequest) (vr ar : RandBytes)
          (myIP : String) (v4 : Bool),
        (prepareStream s req vr ar myIP v4).2.length = 1)
    ∧ (∀ (blocked : Bool) (v : Int), (getState blocked v).length = 1)
    ∧ identifyCalls.length = 1 := by
  refine ⟨runHandler_false_once, ?_, ?_, ?_, ?_, ?_, ?_, ?_, rfl⟩
  · intro s id dns h
    simp [step, handleStreamRequest, h]
  · intro s id dns
    simp [step, handleStreamRequest]
  · intro s id dns h
    cases dns with
    | some a => exact Or.inr ⟨a, by simp [step, handleStreamRequest, h]⟩
    | none =>
      cases hc : s.cache with
      | none => exact Or.inl (by simp [step, handleStreamRequest, h, hc])
      | some c => exact Or.inr ⟨c, by simp [step, handleStreamRequest, h, hc]⟩
  · intro s id
    simp [step, handleStreamRequest]
  · intro cache i
    unfold handleSnapshotRequest snapProceed
    split
    · rfl
    · split
      · split
        · rfl
        · simp
      · simp
  · intro s req vr ar myIP v4
    simp [prepareStream]
  · intro blocked v
    unfold getState
    split <;> rfl

/-- C1, witness for the amended theorem at concrete inputs. -/
theorem claim1_witness :
    (cbCount (runHandler ⟨false⟩ [ProcEvent.stderrData, ProcEvent.close (some 0)]).2 ≤ 1)
      ∧ (successCount (runHandler ⟨false⟩ [ProcEvent.stderrData, ProcEvent.close (some 0)]).2 = 1)
      ∧ ((step ⟨["b"], [], none⟩ (Op.start "a" false none)).2 = [])
      ∧ ((step ⟨["a"], [], none⟩ (Op.start "a" false none)).2
            = [SSOut.cbErr ErrKind.resolveFailed]
          ∨ ∃ a, (step ⟨["a"], [], none⟩ (Op.start "a" false none)).2 = [SSOut.spawn a]) :=
  ⟨(claim1_amended.1 [ProcEvent.stderrData, ProcEvent.close (some 0)]
      (by decide) (by decide)).1,
   (claim1_amended.1 [ProcEvent.stderrData, ProcEvent.close (some 0)]
      (by decide) (by decide)).2 (by decide),
   claim1_amended.2.1 ⟨["b"], [], none⟩ "a" none (by simp),
   claim1_amended.2.2.2.1 ⟨["a"], [], none⟩ "a" none (by simp)⟩

/-! ## Claim C8 -/

/-- C8: on transcoder process exit, exit codes 0, 255 and null (signal
termination) are treated as a normal stop and invoke no error callback
and no teardown; any other exit code before the readiness signal (latch
unset) invokes the pending callback with a start-failure error; any
other exit code after readiness (latch set) forcibly tears down the
streaming session instead of invoking the callback. -/
theorem claim8_exit_handling :
    ∀ (h : HandlerState) (c : Option Int),
      ((c = none ∨ c = some 0 ∨ c = some 255) →
        handlerStep h (ProcEvent.close c) = (h, []))
      ∧ (c ≠ none → c ≠ some 0 → c ≠ some 255 → h.started = false →
          (handlerStep h (ProcEvent.close c)).2 = [HOut.cbErrStart])
      ∧ (c ≠ none → c ≠ some 0 → c ≠ some 255 → h.started = true →
          (handlerStep h (ProcEvent.close c)).2 = [HOut.forceStop]) := by
  intro h c
  refine ⟨?_, ?_, ?_⟩
  · rintro (rfl | rfl | rfl) <;> simp [handlerStep, isNormalCode]
  · intro h1 h2 h3 hs
    have hn : isNormalCode c = false := by
      simp [isNormalCode, h1, h2, h3]
    simp [handlerStep, hn, hs]
  · intro h1 h2 h3 hs
    have hn : isNormalCode c = false := by
      simp [isNormalCode, h1, h2, h3]
    simp [handlerStep, hn, hs]

/-- C8, witness at concrete inputs: code 255 before readiness is a normal
stop with no callback; code 1 before readiness is a start failure; code
1 after readiness is a forced teardown. -/
theorem claim8_witness :
    (handlerStep ⟨false⟩ (ProcEvent.close (some 255)) = (⟨false⟩, []))
      ∧ ((handlerStep ⟨false⟩ (ProcEvent.close (some 1))).2 = [HOut.cbErrStart])
      ∧ ((handlerStep ⟨true⟩ (ProcEvent.close (some 1))).2 = [HOut.forceStop]) :=
  ⟨(claim8_exit_handling ⟨false⟩ (some 255)).1 (Or.inr (Or.inr rfl)),
   (claim8_exit_handling ⟨false⟩ (some 1)).2.1 (by decide) (by decide) (by decide) rfl,
   (claim8_exit_handling ⟨true⟩ (some 1)).2.2 (by decide) (by decide) (by decide) rfl⟩

/-! ## Claims C2 and C4 -/

theorem mem_removeAll {a id : String} {l : List String} :
    a ∈ removeAll id l ↔ a ∈ l ∧ a ≠ id := by
  simp [removeAll, List.mem_filter, bne_iff_ne]

theorem start_pending_eq (s : CamState) (id : String) (b : Bool) (dns : Option String) :
    ((step s (Op.start id b dns)).1).pending = removeAll id s.pending := by
  cases b with
  | false =>
    by_cases hp : id ∈ s.pending
    · cases dns with
      | some a => simp [step, handleStreamRequest, hp]
      | none =>
        cases hc : s.cache with
        | none => simp [step, handleStreamRequest, hp, hc]
        | some c => simp [step, handleStreamRequest, hp, hc]
    · simp [step, handleStreamRequest, hp]
  | true => simp [step, handleStreamRequest]

theorem start_ongoing_cases (s : CamState) (id : String) (b : Bool) (dns : Option String) :
    ((step s (Op.start id b dns)).1).ongoing = s.ongoing
      ∨ ((step s (Op.start id b dns)).1).ongoing = List.insert id s.ongoing := by
  cases b with
  | false =>
    by_cases hp : id ∈ s.pending
    · cases dns with
      | some a => exact Or.inr (by simp [step, handleStreamRequest, hp])
      | none =>
        cases hc : s.cache with
        | none => exact Or.inl (by simp [step, handleStreamRequest, hp, hc])
        | some c => exact Or.inr (by simp [step, handleStreamRequest, hp, hc])
    · exact Or.inl (by simp [step, handleStreamRequest, hp])
  | true => exact Or.inl (by simp [step, handleStreamRequest])

/-- C2, counterexample.  The claim says an identifier is never a key of
both pendingSessions and ongoingSessions at a quiescent point.  The code
does not guard prepareStream against an identifier that already has an
ongoing session: after prepare, a successful start, and a second prepare
of the same identifier, the identifier is a key of both maps (line 331
inserts into pendingSessions while line 557 left the identifier in
ongoingSessions and nothing removed it). -/
theorem claim2_counterexample :
    "a" ∈ (runOps ⟨[], [], none⟩
        [Op.prepare "a", Op.start "a" false (some "9.9.9.9"), Op.prepare "a"]).pending
      ∧ "a" ∈ (runOps ⟨[], [], none⟩
        [Op.prepare "a", Op.start "a" false (some "9.9.9.9"), Op.prepare "a"]).ongoing := by
  constructor
  · decide
  · decide

/-- C2, amended: the exclusivity of pendingSessions and ongoingSessions is
preserved by every atomically processed operation provided prepareStream
is not invoked for an identifier that currently has an ongoing session;
moreover a start request always deletes the pending session of its
identifier (whether or not a process is spawned), and a stop request
always deletes the ongoing session of its identifier. -/
theorem claim2_amended :
    (∀ (s : CamState) (op : Op), MapsExclusive s →
        (∀ id, op = Op.prepare id → id ∉ s.ongoing) →
        MapsExclusive (step s op).1)
    ∧ (∀ (s : CamState) (id : String) (b : Bool) (dns : Option String),
        id ∉ ((step s (Op.start id b dns)).1).pending)
    ∧ (∀ (s : CamState) (id : String), id ∉ ((step s (Op.stop id)).1).ongoing) := by
  refine ⟨?_, ?_, ?_⟩
  · intro s op hInv hPre
    cases op with
    | prepare id0 =>
      intro x hx hy
      simp only [step, prepareEffect, List.mem_insert_iff] at hx hy
      rcases hx with rfl | hx
      · exact hPre x rfl hy
      · exact hInv x hx hy
    | start id b dns =>
      intro x hx hy
      rw [start_pending_eq] at hx
      obtain ⟨hxp, hxne⟩ := mem_removeAll.mp hx
      rcases start_ongoing_cases s id b dns with h | h
      · rw [h] at hy
        exact hInv x hxp hy
      · rw [h, List.mem_insert_iff] at hy
        rcases hy with rfl | hy
        · exact hxne rfl
        · exact hInv x hxp hy
    | stop id =>
      intro x hx hy
      simp only [step, handleStreamRequest] at hx hy
      exact hInv x hx (mem_removeAll.mp hy).1
  · intro s id b dns
    rw [start_pending_eq]
    intro hx
    exact (mem_removeAll.mp hx).2 rfl
  · intro s id
    intro hx
    simp only [step, handleStreamRequest] at hx
    exact (mem_removeAll.mp hx).2 rfl

/-- C2, witness for the amended theorem at concrete inputs. -/
theorem claim2_witness :
    "a" ∉ ((step ⟨[], [], none⟩ (Op.prepare "a")).1).ongoing
      ∧ "a" ∉ ((step ⟨["a"], ["b"], none⟩ (Op.start "a" false (some "1.1.1.1"))).1).pending
      ∧ "c" ∉ ((step ⟨[], ["c"], none⟩ (Op.stop "c")).1).ongoing :=
  ⟨claim2_amended.1 ⟨[], [], none⟩ (Op.prepare "a")
      (fun x hx => absurd hx (List.not_mem_nil x))
      (fun i _ => List.not_mem_nil i) "a" (by decide),
   claim2_amended.2.1 ⟨["a"], ["b"], none⟩ "a" false (some "1.1.1.1"),
   claim2_amended.2.2 ⟨[], ["c"], none⟩ "c"⟩

/-- C4, counterexample.  The claim says a start whose process spawn fails
never produces an ongoingSessions entry.  In the code, spawn returns a
child handle and line 557 registers it in ongoingSessions synchronously,
before any asynchronous "error" event can be delivered; the error
handler (lines 534-537) invokes the callback with the error but does not
remove the entry.  So after prepare and start the identifier is a key of
ongoingSessions even when the spawn then fails. -/
theorem claim4_counterexample :
    "a" ∈ (runOps ⟨[], [], none⟩
        [Op.prepare "a", Op.start "a" false (some "9.9.9.9")]).ongoing
      ∧ (handlerStep ⟨false⟩ ProcEvent.procError).2 = [HOut.cbErrStart] := by
  constructor
  · decide
  · rfl

/-- C4, amended: a spawn-level failure is reported as a start failure via
the callback (the "error" handler invokes it with the error), but the
ongoingSessions entry is created by the start request regardless and is
only removed by the corresponding stop request: an ongoing entry
survives every operation other than its own stop. -/
theorem claim4_amended :
    (∀ h : HandlerState, handlerStep h ProcEvent.procError = (h, [HOut.cbErrStart]))
    ∧ (∀ (s : CamState) (id a : String), id ∈ s.pending →
        ((step s (Op.start id false (some a))).1).ongoing = List.insert id s.ongoing)
    ∧ (∀ (s : CamState) (id : String) (op : Op), id ∈ s.ongoing → op ≠ Op.stop id →
        id ∈ ((step s op).1).ongoing) := by
  refine ⟨fun h => rfl, ?_, ?_⟩
  · intro s id a hp
    simp [step, handleStreamRequest, hp]
  · intro s id op hm hne
    cases op with
    | prepare j =>
      simpa [step, prepareEffect] using hm
    | start j b dns =>
      rcases start_ongoing_cases s j b dns with h | h
      · rw [h]; exact hm
      · rw [h, List.mem_insert_iff]; exact Or.inr hm
    | stop j =>
      have hji : id ≠ j := by
        intro hcontra
        exact hne (by rw [hcontra])
      simp only [step, handleStreamRequest]
      exact mem_removeAll.mpr ⟨hm, hji⟩

/-- C4, witness for the amended theorem at concrete inputs. -/
theorem claim4_witness :
    ((step ⟨["a"], [], none⟩ (Op.start "a" false (some "9.9.9.9"))).1).ongoing
        = List.insert "a" []
      ∧ "a" ∈ ((step ⟨[], ["a"], none⟩ (Op.stop "b")).1).ongoing :=
  ⟨claim4_amended.2.1 ⟨["a"], [], none⟩ "a" "9.9.9.9" (by decide),
   claim4_amended.2.2 ⟨[], ["a"], none⟩ "a" (Op.stop "b") (by decide) (by decide)⟩

/-! ## Claim C5 -/

/-- C5, counterexample.  The claim says that on lookup failure with no
cached address a resolution failure is propagated to the caller rather
than the operation proceeding without an address.  That holds for the
stream start (lines 372-377), but the snapshot path (lines 252-256) only
logs the failure and proceeds: the jpeg fetch is issued with
this.serverIpAddress still unset, and the request ends with a fetch
error, not a resolution failure. -/
theorem claim5_counterexample :
    (handleSnapshotRequest none
        ⟨false, false, "SS002", "open", "open", "open", "OFF", none, false⟩).fetchHost
      = some none
    ∧ (handleSnapshotRequest none
        ⟨false, false, "SS002", "open", "open", "open", "OFF", none, false⟩).callbacks
      = [SnapOut.errFetch] := by
  constructor
  · rfl
  · rfl

/-- C5, amended: for both resolving operations, a successful lookup
overwrites the cached address with the fresh value and the fresh value
is used, and a failed lookup falls back to the cached address when one
exists; on failure with no cached address the stream start propagates a
resolution failure to its caller, while the snapshot fetch proceeds
without an address (the failure is only logged). -/
theorem claim5_amended :
    (∀ (cache : Option String) (i : SnapInput) (a : String),
        (handleSnapshotRequest cache i).resolved = true → i.dnsResult = some a →
        (handleSnapshotRequest cache i).cache = some a
          ∧ (handleSnapshotRequest cache i).fetchHost = some (some a))
    ∧ (∀ (cache : Option String) (i : SnapInput),
        (handleSnapshotRequest cache i).resolved = true → i.dnsResult = none →
        (handleSnapshotRequest cache i).cache = cache
          ∧ (handleSnapshotRequest cache i).fetchHost = some cache)
    ∧ (∀ (s : CamState) (id a : String), id ∈ s.pending →
        (step s (Op.start id false (some a))).2 = [SSOut.spawn a]
          ∧ ((step s (Op.start id false (some a))).1).cache = some a)
    ∧ (∀ (s : CamState) (id c : String), id ∈ s.pending → s.cache = some c →
        (step s (Op.start id false none)).2 = [SSOut.spawn c]
          ∧ ((step s (Op.start id false none)).1).cache = some c)
    ∧ (∀ (s : CamState) (id : String), id ∈ s.pending → s.cache = none →
        (step s (Op.start id false none)).2 = [SSOut.cbErr ErrKind.resolveFailed]) := by
  refine ⟨?_, ?_, ?_, ?_, ?_⟩
  · intro cache i a hres hdns
    by_cases hb : i.blocked
    · simp [handleSnapshotRequest, hb] at hres
    · by_cases hm : (!i.motion && i.model == "SS001") = true
      · by_cases hg : privacyGateClosed i = true
        · simp [handleSnapshotRequest, hb, hm, hg] at hres
        · simp [handleSnapshotRequest, hb, hm, hg, snapProceed, hdns]
      · simp [handleSnapshotRequest, hb, hm, snapProceed, hdns]
  · intro cache i hres hdns
    by_cases hb : i.blocked
    · simp [handleSnapshotRequest, hb] at hres
    · by_cases hm : (!i.motion && i.model == "SS001") = true
      · by_cases hg : privacyGateClosed i = true
        · simp [handleSnapshotRequest, hb, hm, hg] at hres
        · simp [handleSnapshotRequest, hb, hm, hg, snapProceed, hdns]
      · simp [handleSnapshotRequest, hb, hm, snapProceed, hdns]
  · intro s id a hp
    constructor <;> simp [step, handleStreamRequest, hp]
  · intro s id c hp hc
    constructor <;> simp [step, handleStreamRequest, hp, hc]
  · intro s id hp hc
    simp [step, handleStreamRequest, hp, hc]

/-- C5, witness for the amended theorem at concrete inputs. -/
theorem claim5_witness :
    ((handleSnapshotRequest (some "7.7.7.7")
        ⟨false, false, "SS002", "open", "open", "open", "OFF", some "8.8.8.8", true⟩).cache
          = some "8.8.8.8"
      ∧ (handleSnapshotRequest (some "7.7.7.7")
        ⟨false, false, "SS002", "open", "open", "open", "OFF", some "8.8.8.8", true⟩).fetchHost
          = some (some "8.8.8.8"))
    ∧ ((handleSnapshotRequest (some "7.7.7.7")
        ⟨false, false, "SS002", "open", "open", "open", "OFF", none, true⟩).cache
          = some "7.7.7.7"
      ∧ (handleSnapshotRequest (some "7.7.7.7")
        ⟨false, false, "SS002", "open", "open", "open", "OFF", none, true⟩).fetchHost
          = some (some "7.7.7.7"))
    ∧ ((step ⟨["a"], [], none⟩ (Op.start "a" false (some "5.5.5.5"))).2
          = [SSOut.spawn "5.5.5.5"]
      ∧ ((step ⟨["a"], [], none⟩ (Op.start "a" false (some "5.5.5.5"))).1).cache
          = some "5.5.5.5")
    ∧ ((step ⟨["a"], [], some "6.6.6.6"⟩ (Op.start "a" false none)).2
          = [SSOut.spawn "6.6.6.6"]
      ∧ ((step ⟨["a"], [], some "6.6.6.6"⟩ (Op.start "a" false none)).1).cache
          = some "6.6.6.6")
    ∧ (step ⟨["a"], [], none⟩ (Op.start "a" false none)).2
        = [SSOut.cbErr ErrKind.resolveFailed] :=
  ⟨claim5_amended.1 (some "7.7.7.7")
      ⟨false, false, "SS002", "open", "open", "open", "OFF", some "8.8.8.8", true⟩
      "8.8.8.8" rfl rfl,
   claim5_amended.2.1 (some "7.7.7.7")
      ⟨false, false, "SS002", "open", "open", "open", "OFF", none, true⟩ rfl rfl,
   claim5_amended.2.2.1 ⟨["a"], [], none⟩ "a" "5.5.5.5" (by decide),
   claim5_amended.2.2.2.1 ⟨["a"], [], some "6.6.6.6"⟩ "a" "6.6.6.6" (by decide) rfl,
   claim5_amended.2.2.2.2 ⟨["a"], [], none⟩ "a" (by decide) rfl⟩

/-! ## Claim C7 -/

/-- C7: for every snapshot request, a camera model without a privacy
shutter (anything other than "SS001") never queries the alarm state;
while the motion flag is active the whole shutter check is skipped (no
alarm query and no privacy rejection); and for a shutter-equipped model
with no active motion and the shutter flag of the current alarm state
(shutterOff, shutterHome or shutterAway) configured to anything other
than "open", the request fails with the privacy-blocked error after
querying the alarm state and before any snapshot fetch is issued. -/
theorem claim7_privacy :
    ∀ (cache : Option String) (i : SnapInput),
      (i.model ≠ "SS001" → (handleSnapshotRequest cache i).alarmQueried = false)
      ∧ (i.motion = true → (handleSnapshotRequest cache i).alarmQueried = false
          ∧ (handleSnapshotRequest cache i).callbacks ≠ [SnapOut.errPrivacy])
      ∧ (i.blocked = false → i.model = "SS001" → i.motion = false →
          ((i.alarmState = "OFF" ∧ i.shutterOff ≠ "open")
            ∨ (i.alarmState = "HOME" ∧ i.shutterHome ≠ "open")
            ∨ (i.alarmState = "AWAY" ∧ i.shutterAway ≠ "open")) →
          (handleSnapshotRequest cache i).callbacks = [SnapOut.errPrivacy]
            ∧ (handleSnapshotRequest cache i).fetchHost = none
            ∧ (handleSnapshotRequest cache i).alarmQueried = true) := by
  intro cache i
  refine ⟨?_, ?_, ?_⟩
  · intro hmod
    have hne : (i.model == "SS001") = false := by
      simp [hmod]
    by_cases hb : i.blocked
    · simp [handleSnapshotRequest, hb]
    · simp [handleSnapshotRequest, hb, hne, snapProceed]
  · intro hmot
    by_cases hb : i.blocked
    · simp [handleSnapshotRequest, hb]
    · constructor
      · simp [handleSnapshotRequest, hb, hmot, snapProceed]
      · simp only [handleSnapshotRequest, hb, hmot, snapProceed]
        cases hf : i.fetchOk <;> simp [hf]
  · intro hb hmod hmot hgate
    have hgc : privacyGateClosed i = true := by
      simpa [privacyGateClosed, or_assoc] using hgate
    simp [handleSnapshotRequest, hb, hmod, hmot, hgc]

/-- C7, witness at concrete inputs: a shutter-equipped model in HOME state
with shutterHome not "open" is privacy-blocked with no fetch; a
non-shutter model never queries the alarm; an active motion flag skips
the check. -/
theorem claim7_witness :
    ((handleSnapshotRequest none
        ⟨false, false, "SS001", "open", "closed", "open", "HOME", none, true⟩).callbacks
          = [SnapOut.errPrivacy]
      ∧ (handleSnapshotRequest none
        ⟨false, false, "SS001", "open", "closed", "open", "HOME", none, true⟩).fetchHost
          = none
      ∧ (handleSnapshotRequest none
        ⟨false, false, "SS001", "open", "closed", "open", "HOME", none, true⟩).alarmQueried
          = true)
    ∧ (handleSnapshotRequest none
        ⟨false, false, "SS002", "open", "open", "open", "OFF", none, true⟩).alarmQueried
          = false
    ∧ (handleSnapshotRequest none
        ⟨false, true, "SS001", "open", "closed", "open", "HOME", none, true⟩).alarmQueried
          = false :=
  ⟨(claim7_privacy none
      ⟨false, false, "SS001", "open", "closed", "open", "HOME", none, true⟩).2.2
      rfl rfl rfl (Or.inr (Or.inl ⟨rfl, by decide⟩)),
   (claim7_privacy none
      ⟨false, false, "SS002", "open", "open", "open", "OFF", none, true⟩).1 (by decide),
   ((claim7_privacy none
      ⟨false, true, "SS001", "open", "closed", "open", "HOME", none, true⟩).2.1 rfl).1⟩

/-! ## Claim C6 -/

theorem ssrcFromRandom_bounds (b : RandBytes) :
    0 ≤ ssrcFromRandom b ∧ ssrcFromRandom b < 16777216 := by
  have h1 : b.b1.val < 256 := b.b1.isLt
  have h2 : b.b2.val < 256 := b.b2.isLt
  have h3 : b.b3.val < 256 := b.b3.isLt
  simp only [ssrcFromRandom, readInt32BE, Fin.val_zero, Nat.zero_mul, Nat.zero_add]
  rw [if_pos (by omega)]
  constructor
  · omega
  · omega

/-- C6: every SSRC generated by prepareStream, video and audio alike, is
produced from four random bytes whose first byte is forced to zero and
then read as a big-endian signed 32-bit integer, so it always satisfies
0 ≤ ssrc < 0x01000000. -/
theorem claim6_ssrc :
    (∀ (s : CamState) (req : PrepareRequest) (vrand arand : RandBytes)
        (myIP : String) (v4 : Bool),
      ∀ resp ∈ (prepareStream s req vrand arand myIP v4).2,
        (∀ mv, resp.video = some mv → 0 ≤ mv.ssrc ∧ mv.ssrc < 16777216)
          ∧ (∀ ma, resp.audio = some ma → 0 ≤ ma.ssrc ∧ ma.ssrc < 16777216))
    ∧ (∀ b : RandBytes, 0 ≤ ssrcFromRandom b ∧ ssrcFromRandom b < 16777216) := by
  refine ⟨?_, ssrcFromRandom_bounds⟩
  intro s req vrand arand myIP v4 resp hresp
  simp only [prepareStream, List.mem_singleton] at hresp
  subst hresp
  constructor
  · intro mv hmv
    simp only [Option.map_eq_some'] at hmv
    obtain ⟨m, _, hfm⟩ := hmv
    rw [← hfm]
    exact ssrcFromRandom_bounds vrand
  · intro ma hma
    simp only [Option.map_eq_some'] at hma
    obtain ⟨m, _, hfm⟩ := hma
    rw [← hfm]
    exact ssrcFromRandom_bounds arand

/-- C6, witness: a concrete prepareStream call with a video request
produces a response whose SSRC is within bounds. -/
theorem claim6_witness :
    0 ≤ ssrcFromRandom ⟨0, 7, 8, 9⟩ ∧ ssrcFromRandom ⟨0, 7, 8, 9⟩ < 16777216 :=
  (claim6_ssrc.1 ⟨[], [], none⟩ ⟨"sess", "addr", some ⟨100, [1], [2]⟩, none⟩
      ⟨0, 7, 8, 9⟩ ⟨0, 7, 8, 9⟩ "10.0.0.2" true
      ⟨some ⟨100, ssrcFromRandom ⟨0, 7, 8, 9⟩, [1], [2]⟩, none, ⟨"10.0.0.2", true⟩⟩
      (List.mem_singleton.mpr rfl)).1
    ⟨100, ssrcFromRandom ⟨0, 7, 8, 9⟩, [1], [2]⟩ rfl

/-! ## Claim C9 -/

theorem runSub_append (base : Nat) (es1 es2 : List SubEvent) : ∀ m : Nat,
    runSub base m (es1 ++ es2)
      = ((runSub base (runSub base m es1).1 es2).1,
         (runSub base m es1).2 ++ (runSub base (runSub base m es1).1 es2).2) := by
  induction es1 with
  | nil => intro m; simp [runSub]
  | cons e t ih =>
    intro m
    simp only [List.cons_append, runSub, List.append_eq]
    rw [ih]
    simp [List.append_assoc]

theorem runSub_replicate (base : Nat) : ∀ (k m : Nat),
    runSub base m (List.replicate k SubEvent.rateLimitErr)
      = (m + k, (List.range k).map (fun i => 2 ^ (m + i) * base)) := by
  intro k
  induction k with
  | zero => intro m; simp [runSub]
  | succ n ih =>
    intro m
    rw [List.replicate_succ', runSub_append, ih]
    simp only [runSub, subStep, List.range_succ, List.map_append, List.map_cons,
      List.map_nil, Prod.mk.injEq]
    constructor
    · omega
    · simp

/-- C9: after k consecutive rate-limit failures of the event subscription
(counter starting at 0), the counter equals k and the k-th retry was
scheduled with delay 2 ^ (k - 1) times the base interval — in
particular the delays of the first k retries are base * 2 ^ i for
i < k, so three consecutive RateLimitError occurrences produce delays
base, 2 * base, 4 * base — and a successful connection (the CONNECTED
event) resets the counter to zero. -/
theorem claim9_backoff :
    ∀ (base k n : Nat),
      (runSub base 0 (List.replicate k SubEvent.rateLimitErr)).1 = k
      ∧ (runSub base 0 (List.replicate k SubEvent.rateLimitErr)).2
          = (List.range k).map (fun i => 2 ^ i * base)
      ∧ (subStep base n SubEvent.connected).1 = 0
      ∧ (runSub base 0
            [SubEvent.rateLimitErr, SubEvent.rateLimitErr, SubEvent.rateLimitErr]).2
          = [base, 2 * base, 4 * base] := by
  intro base k n
  refine ⟨?_, ?_, rfl, ?_⟩
  · rw [runSub_replicate]
    omega
  · rw [runSub_replicate]
    simp
  · simp only [runSub, subStep, List.append_nil]
    norm_num

/-! ## Claim C10 -/

/-- C10: under docker with no custom transcoder binary, the width clamp
rewrites only the "-vf" scale element of the video group to use the
clamped width min(width, 720); the source group (in particular the
input URL, which keeps the x= query parameter built from the original
unclamped width), the audio group and every other video element are
returned unchanged. -/
theorem claim10_clamp :
    ∀ (token host uuid : String) (fps vb mtu width : Nat) (vssrc assrc : Int)
      (vsrtp asrtp addr : String) (vport aport abr asr : Nat),
      clampStep true none width
          (buildSourceArgs token host uuid width,
           buildVideoArgs fps vb mtu width vssrc vsrtp addr vport,
           buildAudioArgs abr asr assrc asrtp addr aport)
        = (min width 720,
           (buildSourceArgs token host uuid width,
            [⟨"-map", some (JVal.vStr "0:0")⟩,
             ⟨"-vcodec", some (JVal.vStr "libx264")⟩,
             ⟨"-tune", some (JVal.vStr "zerolatency")⟩,
             ⟨"-preset", some (JVal.vStr "superfast")⟩,
             ⟨"-pix_fmt", some (JVal.vStr "yuv420p")⟩,
             ⟨"-r", some (JVal.vInt (fps : Int))⟩,
             ⟨"-f", some (JVal.vStr "rawvideo")⟩,
             ⟨"-vf", some (JVal.vStr ("scale=" ++ toString (min width 720) ++ ":-2"))⟩,
             ⟨"-b:v", some (JVal.vStr (toString vb ++ "k"))⟩,
             ⟨"-bufsize", some (JVal.vStr (toString (2 * vb) ++ "k"))⟩,
             ⟨"-maxrate", some (JVal.vStr (toString vb ++ "k"))⟩,
             ⟨"-payload_type", some (JVal.vInt 99)⟩,
             ⟨"-ssrc", some (JVal.vInt vssrc)⟩,
             ⟨"-f", some (JVal.vStr "rtp")⟩,
             ⟨"-srtp_out_suite", some (JVal.vStr "AES_CM_128_HMAC_SHA1_80")⟩,
             ⟨"-srtp_out_params", some (JVal.vStr vsrtp)⟩,
             ⟨"srtp://" ++ addr ++ ":" ++ toString vport ++ "?rtcpport="
                ++ toString vport ++ "&localrtcpport=" ++ toString vport
                ++ "&pkt_size=" ++ toString mtu, none⟩],
            buildAudioArgs abr asr assrc asrtp addr aport))
      ∧ firstArg (buildSourceArgs token host uuid width) "-i"
          = some ⟨"-i", some (JVal.vStr ("https://" ++ host ++ "/v1/" ++ uuid
              ++ "/flv?x=" ++ toString width ++ "&audioEncoding=AAC"))⟩ := by
  intro token host uuid fps vb mtu width vssrc assrc vsrtp asrtp addr vport aport abr asr
  constructor
  · rfl
  · rfl

/-! ## Claim C3 -/

theorem setFirst_of_firstArg (k : String) (v : JVal) :
    ∀ (g : List Arg) (a : Arg), firstArg g k = some a → a.val = some v →
      setFirst k v g = g := by
  intro g
  induction g with
  | nil => intro a h hv; simp [firstArg] at h
  | cons b rest ih =>
    rcases b with ⟨bk, bv⟩
    intro a h hv
    by_cases hb : bk = k
    · have ha : a = (⟨bk, bv⟩ : Arg) := by
        subst hb
        simp [firstArg, List.find?_cons] at h
        exact h.symm
      subst ha
      change bv = some v at hv
      subst hv
      simp [setFirst, hb]
    · have h2 : firstArg rest k = some a := by
        simpa [firstArg, List.find?_cons, hb] using h
      simp [setFirst, hb, ih a h2 hv]

theorem hasKey_of_firstArg {g : List Arg} {k : String} {a : Arg}
    (h : firstArg g k = some a) : hasKey g k = true := by
  have : (firstArg g k).isSome = true := by rw [h]; rfl
  simpa [hasKey, firstArg, List.find?_isSome] using this

theorem firstArg_setFirst_self (k : String) (v : JVal) :
    ∀ g : List Arg, hasKey g k = true →
      firstArg (setFirst k v g) k = some ⟨k, some v⟩ := by
  intro g
  induction g with
  | nil => intro h; simp [hasKey] at h
  | cons b rest ih =>
    intro h
    by_cases hb : b.key = k
    · subst hb
      simp [setFirst, firstArg, List.find?_cons]
    · have h2 : hasKey rest k = true := by
        simpa [hasKey, hb] using h
      simp [setFirst, firstArg, List.find?_cons, hb]
      simpa [firstArg] using ih h2

theorem firstArg_append_left {g : List Arg} {k : String} {a : Arg}
    (h : firstArg g k = some a) (l : List Arg) :
    firstArg (g ++ l) k = some a := by
  induction g with
  | nil => simp [firstArg] at h
  | cons b rest ih =>
    by_cases hb : b.key = k
    · subst hb
      simp [firstArg, List.find?_cons] at h ⊢
      exact h
    · have h2 : firstArg rest k = some a := by
        simpa [firstArg, List.find?_cons, hb] using h
      simpa [firstArg, List.find?_cons, hb] using ih h2

theorem firstArg_append_right {g : List Arg} {k : String}
    (h : firstArg g k = none) (l : List Arg) :
    firstArg (g ++ l) k = firstArg l k := by
  induction g with
  | nil => simp
  | cons b rest ih =>
    by_cases hb : b.key = k
    · subst hb
      simp [firstArg, List.find?_cons] at h
    · have h2 : firstArg rest k = none := by
        simpa [firstArg, List.find?_cons, hb] using h
      simpa [firstArg, List.find?_cons, hb] using ih h2

theorem firstArg_none_of_not_hasKey {g : List Arg} {k : String}
    (h : hasKey g k = false) : firstArg g k = none := by
  cases hf : firstArg g k with
  | none => rfl
  | some a => rw [hasKey_of_firstArg hf] at h; cases h

theorem firstArg_mergeStep_self (atEnd : Bool) (g : List Arg) (k : String) (v : JVal)
    (hv : v ≠ JVal.vFalse) :
    firstArg (mergeStep atEnd g (k, v)) k = some ⟨k, some v⟩ := by
  by_cases hk : hasKey g k = true
  · have hstep : mergeStep atEnd g (k, v) = setFirst k v g := by
      simp [mergeStep, hk, hv]
    rw [hstep]
    exact firstArg_setFirst_self k v g hk
  · have hk2 : hasKey g k = false := by simpa using hk
    have hnone : firstArg g k = none := firstArg_none_of_not_hasKey hk2
    cases atEnd with
    | true =>
      have hstep : mergeStep true g (k, v) = g ++ [⟨k, some v⟩] := by
        simp [mergeStep, hk2]
      rw [hstep, firstArg_append_right hnone]
      simp [firstArg, List.find?_cons]
    | false =>
      have hstep : mergeStep false g (k, v) = ⟨k, some v⟩ :: g := by
        simp [mergeStep, hk2]
      rw [hstep]
      simp [firstArg, List.find?_cons]

theorem firstArg_setFirst_ne (k2 k : String) (v : JVal) (hne : k2 ≠ k) :
    ∀ g : List Arg, firstArg (setFirst k2 v g) k = firstArg g k := by
  intro g
  induction g with
  | nil => simp [setFirst]
  | cons b rest ih =>
    by_cases hb2 : b.key = k2
    · have hbk : (b.key == k) = false := by
        rw [hb2]
        simpa using hne
      have hset : setFirst k2 v (b :: rest) = ⟨b.key, some v⟩ :: rest := by
        simp [setFirst, hb2]
      rw [hset]
      simp [firstArg, List.find?_cons, hbk]
    · have hset : setFirst k2 v (b :: rest) = b :: setFirst k2 v rest := by
        simp [setFirst, hb2]
      rw [hset]
      by_cases hbk : (b.key == k) = true
      · simp [firstArg, List.find?_cons, hbk]
      · have hbkf : (b.key == k) = false := by simpa using hbk
        simp only [firstArg, List.find?_cons, hbkf]
        exact ih

theorem firstArg_mergeStep_ne (atEnd : Bool) (g : List Arg) (k2 k : String) (v2 : JVal)
    (hne : k2 ≠ k) (hv2 : v2 ≠ JVal.vFalse) :
    firstArg (mergeStep atEnd g (k2, v2)) k = firstArg g k := by
  by_cases hk : hasKey g k2 = true
  · have hstep : mergeStep atEnd g (k2, v2) = setFirst k2 v2 g := by
      simp [mergeStep, hk, hv2]
    rw [hstep]
    exact firstArg_setFirst_ne k2 k v2 hne g
  · have hk2 : hasKey g k2 = false := by simpa using hk
    have hbeqf : (k2 == k) = false := by simpa using hne
    cases atEnd with
    | true =>
      have hstep : mergeStep true g (k2, v2) = g ++ [⟨k2, some v2⟩] := by
        simp [mergeStep, hk2]
      rw [hstep]
      cases hf : firstArg g k with
      | some a => rw [firstArg_append_left hf]
      | none =>
        rw [firstArg_append_right hf]
        simp [firstArg, List.find?_cons, hbeqf]
    | false =>
      have hstep : mergeStep false g (k2, v2) = ⟨k2, some v2⟩ :: g := by
        simp [mergeStep, hk2]
      rw [hstep]
      simp [firstArg, List.find?_cons, hbeqf]

theorem firstArg_mergeOptions_ne (atEnd : Bool) :
    ∀ (m : List (String × JVal)) (g : List Arg) (k : String),
      (∀ kv ∈ m, kv.1 ≠ k ∧ kv.2 ≠ JVal.vFalse) →
      firstArg (mergeOptions atEnd g m) k = firstArg g k := by
  intro m
  induction m with
  | nil => intro g k _; rfl
  | cons kv rest ih =>
    intro g k h
    have hkv := h kv (List.mem_cons_self _ _)
    have hrest : ∀ kv2 ∈ rest, kv2.1 ≠ k ∧ kv2.2 ≠ JVal.vFalse :=
      fun kv2 hm => h kv2 (List.mem_cons_of_mem _ hm)
    show firstArg (mergeOptions atEnd (mergeStep atEnd g kv) rest) k = firstArg g k
    rw [ih (mergeStep atEnd g kv) k hrest]
    rcases kv with ⟨k2, v2⟩
    exact firstArg_mergeStep_ne atEnd g k2 k v2 hkv.1 hkv.2

theorem firstArg_mergeOptions_of_mem (atEnd : Bool) :
    ∀ (m : List (String × JVal)) (g : List Arg),
      (∀ kv ∈ m, kv.2 ≠ JVal.vFalse) → (m.map Prod.fst).Nodup →
      ∀ kv ∈ m, firstArg (mergeOptions atEnd g m) kv.1 = some ⟨kv.1, some kv.2⟩ := by
  intro m
  induction m with
  | nil => intro g _ _ kv h; simp at h
  | cons kv0 rest ih =>
    intro g hval hnod kv hm
    have hval0 : kv0.2 ≠ JVal.vFalse := hval kv0 (List.mem_cons_self _ _)
    have hvalrest : ∀ kv2 ∈ rest, kv2.2 ≠ JVal.vFalse :=
      fun kv2 h2 => hval kv2 (List.mem_cons_of_mem _ h2)
    rw [List.map_cons] at hnod
    obtain ⟨hnotmem, hnod2⟩ := List.nodup_cons.mp hnod
    rcases List.mem_cons.mp hm with hm1 | hm1
    · rw [hm1]
      show firstArg (mergeOptions atEnd (mergeStep atEnd g kv0) rest) kv0.1 = _
      have hside : ∀ kv2 ∈ rest, kv2.1 ≠ kv0.1 ∧ kv2.2 ≠ JVal.vFalse := by
        intro kv2 h2
        refine ⟨?_, hvalrest kv2 h2⟩
        intro hcontra
        exact hnotmem (by rw [← hcontra]; exact List.mem_map_of_mem Prod.fst h2)
      rw [firstArg_mergeOptions_ne atEnd rest (mergeStep atEnd g kv0) kv0.1 hside]
      rcases kv0 with ⟨k0, v0⟩
      exact firstArg_mergeStep_self atEnd g k0 v0 hval0
    · show firstArg (mergeOptions atEnd (mergeStep atEnd g kv0) rest) kv.1 = _
      exact ih (mergeStep atEnd g kv0) hvalrest hnod2 kv hm1

theorem mergeOptions_id_of_first (atEnd : Bool) :
    ∀ (m : List (String × JVal)) (g : List Arg),
      (∀ kv ∈ m, kv.2 ≠ JVal.vFalse) →
      (∀ kv ∈ m, firstArg g kv.1 = some ⟨kv.1, some kv.2⟩) →
      mergeOptions atEnd g m = g := by
  intro m
  induction m with
  | nil => intro g _ _; rfl
  | cons kv0 rest ih =>
    intro g hval hfirst
    have hval0 : kv0.2 ≠ JVal.vFalse := hval kv0 (List.mem_cons_self _ _)
    have hf0 := hfirst kv0 (List.mem_cons_self _ _)
    have hstep : mergeStep atEnd g kv0 = g := by
      rcases kv0 with ⟨k0, v0⟩
      simp only [mergeStep, hasKey_of_firstArg hf0, if_true]
      rw [if_neg hval0]
      exact setFirst_of_firstArg k0 v0 g ⟨k0, some v0⟩ hf0 rfl
    show mergeOptions atEnd (mergeStep atEnd g kv0) rest = g
    rw [hstep]
    exact ih g (fun kv2 h2 => hval kv2 (List.mem_cons_of_mem _ h2))
      (fun kv2 h2 => hfirst kv2 (List.mem_cons_of_mem _ h2))

/-- C3, counterexample.  The claim says the override merge is idempotent
for every override map, including maps containing removal markers of
exactly the boolean value false.  It is not: with group
[["-tune", "zerolatency"]] and override map mapping "-tune" to false,
the first merge removes the flag, so the second merge finds it absent
and pushes ["-tune", false] back (the value === false branch of
lines 456-461 is only reached when the flag is already present). -/
theorem claim3_counterexample :
    mergeOptions true
        (mergeOptions true [⟨"-tune", some (JVal.vStr "zerolatency")⟩]
          [("-tune", JVal.vFalse)])
        [("-tune", JVal.vFalse)]
      ≠ mergeOptions true [⟨"-tune", some (JVal.vStr "zerolatency")⟩]
          [("-tune", JVal.vFalse)] := by
  decide

/-- C3, amended: merging an override map into an argument group, with the
push variant (video, audio) or the unshift variant (source) alike, is
idempotent for every override map that contains no removal marker, that
is, no value that is exactly the boolean false (the keys of the map are
distinct, being the keys of a JavaScript object); with a removal marker
the second merge re-inserts the removed flag with the value false, so
idempotence fails. -/
theorem claim3_amended :
    ∀ (atEnd : Bool) (g : List Arg) (m : List (String × JVal)),
      (∀ kv ∈ m, kv.2 ≠ JVal.vFalse) → (m.map Prod.fst).Nodup →
      mergeOptions atEnd (mergeOptions atEnd g m) m = mergeOptions atEnd g m :=
  fun atEnd g m hval hnod =>
    mergeOptions_id_of_first atEnd m (mergeOptions atEnd g m) hval
      (firstArg_mergeOptions_of_mem atEnd m g hval hnod)

/-- C3, witness for the amended theorem at a concrete group and override
map without removal markers. -/
theorem claim3_witness :
    mergeOptions true
        (mergeOptions true [⟨"-vcodec", some (JVal.vStr "libx264")⟩]
          [("-vcodec", JVal.vStr "copy"), ("-g", JVal.vStr "30")])
        [("-vcodec", JVal.vStr "copy"), ("-g", JVal.vStr "30")]
      = mergeOptions true [⟨"-vcodec", some (JVal.vStr "libx264")⟩]
          [("-vcodec", JVal.vStr "copy"), ("-g", JVal.vStr "30")] :=
  claim3_amended true [⟨"-vcodec", some (JVal.vStr "libx264")⟩]
    [("-vcodec", JVal.vStr "copy"), ("-g", JVal.vStr "30")]
    (by decide) (by decide)
